import Mathlib

/-
Shallow embedding of the sheet module of python-calamine
(src/types/sheet.rs): the materialized `CalamineSheet` with its shape
getters and `to_python` export, the enum conversions for sheet kind and
visibility, and the lazy `CalamineLazySheet` streaming cursor.

The backing grid type (`calamine::Range`), the raw cell type
(`calamine::Data`), the `CellValue` conversion and the `LazyCell` wrapper
live outside the embedded source file; they are modelled from the spec
(sections 3, 4.1, 4.2, 4.4, 4.5), as indicated on each definition.
Coordinates are Rust `u32`, values modelled as `Nat`; the one subtraction
whose underflow matters (`nrows - 1` in `to_python`) is modelled
explicitly: an underflowing call is a failure (`none`), matching the
panic of the Rust arithmetic there.
-/

/-- Modelled from the spec (section 3, CellValue source side): the raw cell
type `calamine::Data`, a closed union of spreadsheet primitives. IEEE floats
are modelled by their rational values; they are only passed through. -/
inductive Data where
  | Empty : Data
  | IntVal (i : Int) : Data
  | FloatVal (q : Rat) : Data
  | StringVal (s : String) : Data
  | BoolVal (b : Bool) : Data
  | DateTimeVal (q : Rat) : Data
  | ErrorVal (e : String) : Data
deriving DecidableEq

/-- Modelled from the spec (section 3): the canonical CellValue union. -/
inductive CellValue where
  | Empty : CellValue
  | Text (s : String) : CellValue
  | Integer (i : Int) : CellValue
  | Float (q : Rat) : CellValue
  | Boolean (b : Bool) : CellValue
  | DateTime (q : Rat) : CellValue
  | ErrorValue (e : String) : CellValue
deriving DecidableEq

/-- Modelled from the spec (section 4.1): the `From<&Data> for CellValue`
conversion of the repository, a total, never-failing variant-wise map. -/
def CellValue.fromData : Data → CellValue
  | Data.Empty => CellValue.Empty
  | Data.IntVal i => CellValue.Integer i
  | Data.FloatVal q => CellValue.Float q
  | Data.StringVal s => CellValue.Text s
  | Data.BoolVal b => CellValue.Boolean b
  | Data.DateTimeVal q => CellValue.DateTime q
  | Data.ErrorVal e => CellValue.ErrorValue e

/-- Modelled from the spec (sections 2, 4.2, 4.4): the backing grid
`calamine::Range<Data>`, a dense row-major vector `inner` addressed by the
inclusive bounding box `rstart`..`rend` in absolute document coordinates. -/
structure Range where
  rstart : Nat × Nat
  rend : Nat × Nat
  inner : List Data
deriving DecidableEq

/-- Modelled from the spec (section 3, Dimensions): a range is empty exactly
when its bounding box is degenerate (end before start in either axis). -/
def Range.is_empty (r : Range) : Bool :=
  decide (r.rend.1 < r.rstart.1) || decide (r.rend.2 < r.rstart.2)

/-- Modelled from the spec (section 4.4): `start()` is the raw top-left
coordinate, absent for an empty sheet. -/
def Range.start (r : Range) : Option (Nat × Nat) :=
  if r.is_empty then none else some r.rstart

/-- Modelled from the spec (section 4.4): `end()` is the raw bottom-right
coordinate, absent for an empty sheet. -/
def Range.end_ (r : Range) : Option (Nat × Nat) :=
  if r.is_empty then none else some r.rend

/-- Modelled from the spec (section 4.2): height is
`end.row - start.row + 1` when dimensions exist, else 0. -/
def Range.height (r : Range) : Nat :=
  if r.is_empty then 0 else r.rend.1 - r.rstart.1 + 1

/-- Modelled from the spec (section 4.2): width is
`end.col - start.col + 1` when dimensions exist, else 0. -/
def Range.width (r : Range) : Nat :=
  if r.is_empty then 0 else r.rend.2 - r.rstart.2 + 1

/-- Modelled from the spec (section 4.4): the cell stored at an absolute
coordinate, `Data.Empty` outside the populated bounding box. -/
def Range.get (r : Range) (row col : Nat) : Data :=
  if r.rstart.1 ≤ row ∧ row ≤ r.rend.1 ∧ r.rstart.2 ≤ col ∧ col ≤ r.rend.2 then
    r.inner.getD ((row - r.rstart.1) * r.width + (col - r.rstart.2)) Data.Empty
  else Data.Empty

/-- Modelled from the spec (section 4.4): the sub-view
`Range::range(start, end)` re-slices the grid at absolute coordinates,
filling cells outside the original bounding box with `Data.Empty`
(default-filled copy of the overlap, as a fresh grid). -/
def Range.range (r : Range) (s e : Nat × Nat) : Range :=
  { rstart := s
    rend := e
    inner :=
      ((List.range (e.1 - s.1 + 1)).map (fun i =>
        (List.range (e.2 - s.2 + 1)).map (fun j => r.get (s.1 + i) (s.2 + j)))).flatten }

/-- Modelled from the spec (section 4.4): `rows()` iterates the dense grid
in row-major chunks of `width`; an empty range yields no rows. -/
def Range.rows (r : Range) : List (List Data) :=
  if r.is_empty then []
  else (List.range r.height).map (fun i => (r.inner.drop (i * r.width)).take r.width)

/-- The materialized sheet: a name plus a shared, read-only backing grid
(src/types/sheet.rs, `CalamineSheet`). -/
structure CalamineSheet where
  name : String
  range : Range

/-- Getter `height` (src/types/sheet.rs line 163): `self.range.height()`. -/
def CalamineSheet.height (s : CalamineSheet) : Nat :=
  s.range.height

/-- Getter `width` (src/types/sheet.rs line 168): `self.range.width()`. -/
def CalamineSheet.width (s : CalamineSheet) : Nat :=
  s.range.width

/-- Getter `total_height` (src/types/sheet.rs line 173):
`self.range.end().unwrap_or_default().0`. -/
def CalamineSheet.total_height (s : CalamineSheet) : Nat :=
  (s.range.end_.getD (0, 0)).1

/-- Getter `total_width` (src/types/sheet.rs line 178):
`self.range.end().unwrap_or_default().1`. -/
def CalamineSheet.total_width (s : CalamineSheet) : Nat :=
  (s.range.end_.getD (0, 0)).2

/-- Getter `start` (src/types/sheet.rs line 183). -/
def CalamineSheet.start (s : CalamineSheet) : Option (Nat × Nat) :=
  s.range.start

/-- Getter `end` (src/types/sheet.rs line 188). -/
def CalamineSheet.end_ (s : CalamineSheet) : Option (Nat × Nat) :=
  s.range.end_

/-- The defaulting of the `nrows` argument of `to_python`
(src/types/sheet.rs lines 198-201): `slf.range.end().map_or(0, end.0 + 1)`. -/
def CalamineSheet.effectiveNrows (s : CalamineSheet) (nrows? : Option Nat) : Nat :=
  match nrows? with
  | some n => n
  | none => (s.range.end_.map (fun e => e.1 + 1)).getD 0

/-- The view selection of `to_python` (src/types/sheet.rs lines 203-212).
The source condition is `skip_empty_area || Some((0, 0)) == slf.range.start()`;
`nrows - 1` is a Rust `u32` subtraction, so the call fails (`none`) when it
underflows at `nrows = 0`. -/
def CalamineSheet.exportRange (s : CalamineSheet) (skip_empty_area : Bool)
    (nrows : Nat) : Option Range :=
  if skip_empty_area = true ∨ s.range.start = some ((0 : Nat), (0 : Nat)) then
    some s.range
  else
    match s.range.end_ with
    | some e =>
      if nrows > e.1 then some (s.range.range (0, 0) (e.1, e.2))
      else if 1 ≤ nrows then some (s.range.range (0, 0) (nrows - 1, e.2))
      else none
    | none => some s.range

/-- `to_python` (src/types/sheet.rs lines 192-220): default the row limit,
select the view, then take `nrows` rows and convert each cell. -/
def CalamineSheet.to_python (s : CalamineSheet) (skip_empty_area : Bool)
    (nrows? : Option Nat) : Option (List (List CellValue)) :=
  let nrows := s.effectiveNrows nrows?
  (s.exportRange skip_empty_area nrows).map
    (fun r => (r.rows.take nrows).map (fun row => row.map CellValue.fromData))

/-- Source-format sheet classification `calamine::SheetType`; its variant
set is certified by the exhaustive, wildcard-free match in
src/types/sheet.rs lines 54-64. -/
inductive SheetType where
  | WorkSheet : SheetType
  | DialogSheet : SheetType
  | MacroSheet : SheetType
  | ChartSheet : SheetType
  | Vba : SheetType
deriving DecidableEq, Fintype

/-- Canonical sheet classification (src/types/sheet.rs lines 33-46). -/
inductive SheetTypeEnum where
  | WorkSheet : SheetTypeEnum
  | DialogSheet : SheetTypeEnum
  | MacroSheet : SheetTypeEnum
  | ChartSheet : SheetTypeEnum
  | Vba : SheetTypeEnum
deriving DecidableEq, Fintype

/-- `From<SheetType> for SheetTypeEnum` (src/types/sheet.rs lines 54-64). -/
def SheetTypeEnum.fromSheetType : SheetType → SheetTypeEnum
  | SheetType.WorkSheet => SheetTypeEnum.WorkSheet
  | SheetType.DialogSheet => SheetTypeEnum.DialogSheet
  | SheetType.MacroSheet => SheetTypeEnum.MacroSheet
  | SheetType.ChartSheet => SheetTypeEnum.ChartSheet
  | SheetType.Vba => SheetTypeEnum.Vba

/-- Source-format visibility `calamine::SheetVisible`; variant set certified
by the exhaustive match in src/types/sheet.rs lines 83-91. -/
inductive SheetVisible where
  | Visible : SheetVisible
  | Hidden : SheetVisible
  | VeryHidden : SheetVisible
deriving DecidableEq, Fintype

/-- Canonical visibility (src/types/sheet.rs lines 66-75). -/
inductive SheetVisibleEnum where
  | Visible : SheetVisibleEnum
  | Hidden : SheetVisibleEnum
  | VeryHidden : SheetVisibleEnum
deriving DecidableEq, Fintype

/-- `From<SheetVisible> for SheetVisibleEnum` (src/types/sheet.rs
lines 83-91). -/
def SheetVisibleEnum.fromSheetVisible : SheetVisible → SheetVisibleEnum
  | SheetVisible.Visible => SheetVisibleEnum.Visible
  | SheetVisible.Hidden => SheetVisibleEnum.Hidden
  | SheetVisible.VeryHidden => SheetVisibleEnum.VeryHidden

/-- `SheetMetadata` (src/types/sheet.rs lines 93-138). -/
structure SheetMetadata where
  name : String
  typ : SheetTypeEnum
  visible : SheetVisibleEnum
deriving DecidableEq

/-- `SheetMetadata::new` (src/types/sheet.rs lines 132-138). -/
def SheetMetadata.new (name : String) (typ : SheetType) (visible : SheetVisible) :
    SheetMetadata :=
  { name := name
    typ := SheetTypeEnum.fromSheetType typ
    visible := SheetVisibleEnum.fromSheetVisible visible }

/-- Modelled from the spec (section 4.5): the bounding box reported by the
underlying format reader (`calamine::Dimensions`). -/
structure CalamineDimensions where
  start : Nat × Nat
  end_ : Nat × Nat
deriving DecidableEq

/-- `Dimensions` (src/types/sheet.rs lines 16-22): start and end, each a
(row, col) pair. -/
structure Dimensions where
  start : Nat × Nat
  end_ : Nat × Nat
deriving DecidableEq

/-- `From<CalamineDimensions> for Dimensions` (src/types/sheet.rs
lines 24-31). -/
def Dimensions.fromCalamine (d : CalamineDimensions) : Dimensions :=
  { start := d.start, end_ := d.end_ }

/-- Modelled from the spec (section 4.5): a raw streamed cell
(`calamine::Cell<DataRef>`), a position plus a raw value. -/
structure Cell where
  pos : Nat × Nat
  val : Data
deriving DecidableEq

/-- Error payload of the xlsx-family reader (opaque here). -/
structure XlsxError where
  msg : String
deriving DecidableEq

/-- Error payload of the xlsb reader (opaque here). -/
structure XlsbError where
  msg : String
deriving DecidableEq

/-- `calamine::Error`, restricted to the arms built in
src/types/sheet.rs lines 228-238 (`Error::Xlsx`, `Error::Xlsb`). -/
inductive Error where
  | Xlsx (e : XlsxError) : Error
  | Xlsb (e : XlsbError) : Error
deriving DecidableEq

/-- Modelled from the spec (section 4.5): a format-specific streaming
cursor. Its interaction with the byte stream is modelled as the
pre-determined list of outcomes its successive `next_cell` calls produce;
its declared bounding box is the `dims` field, a pure accessor. Once the
outcome list is exhausted the reader keeps reporting a clean end. -/
structure FormatCursor (ε : Type) where
  dims : CalamineDimensions
  pending : List (Except ε (Option Cell))

instance {ε α : Type} [DecidableEq ε] [DecidableEq α] : DecidableEq (Except ε α) :=
  fun a b =>
    match a, b with
    | Except.ok x, Except.ok y => decidable_of_iff (x = y) (by simp)
    | Except.error x, Except.error y => decidable_of_iff (x = y) (by simp)
    | Except.ok _, Except.error _ => isFalse (fun h => Except.noConfusion h)
    | Except.error _, Except.ok _ => isFalse (fun h => Except.noConfusion h)

instance {ε : Type} [DecidableEq ε] : DecidableEq (FormatCursor ε) :=
  fun a b =>
    decidable_of_iff (a.dims = b.dims ∧ a.pending = b.pending)
      (by cases a; cases b; simp)

/-- Modelled from the spec (section 4.5): one `next_cell` step of the
underlying reader, consuming one outcome. -/
def FormatCursor.next_cell {ε : Type} (c : FormatCursor ε) :
    Except ε (Option Cell) × FormatCursor ε :=
  match c.pending with
  | [] => (Except.ok none, c)
  | r :: rest => (r, { c with pending := rest })

/-- `CalamineLazyReader` (src/types/sheet.rs lines 223-226): a tagged union
over the two concrete cursor kinds. -/
inductive CalamineLazyReader where
  | Xlsx (c : FormatCursor XlsxError) : CalamineLazyReader
  | Xlsb (c : FormatCursor XlsbError) : CalamineLazyReader
deriving DecidableEq

/-- `CalamineLazyReader::next_cell` (src/types/sheet.rs lines 229-238):
dispatch to the active cursor, wrapping its error in the matching
`Error` arm. The mutated cursor is threaded explicitly. -/
def CalamineLazyReader.next_cell :
    CalamineLazyReader → Except Error (Option Cell) × CalamineLazyReader
  | CalamineLazyReader.Xlsb c =>
      ((c.next_cell.1).mapError Error.Xlsb, CalamineLazyReader.Xlsb c.next_cell.2)
  | CalamineLazyReader.Xlsx c =>
      ((c.next_cell.1).mapError Error.Xlsx, CalamineLazyReader.Xlsx c.next_cell.2)

/-- `CalamineLazyReader::dimensions` (src/types/sheet.rs lines 239-244):
an immutable borrow of the active cursor; does not advance it. -/
def CalamineLazyReader.dimensions : CalamineLazyReader → Dimensions
  | CalamineLazyReader.Xlsb c => Dimensions.fromCalamine c.dims
  | CalamineLazyReader.Xlsx c => Dimensions.fromCalamine c.dims

/-- Modelled from the spec (section 4.5): the repository `LazyCell` wrapper,
carrying (row, column, raw value), built by `LazyCell::from` over a raw
streamed cell. -/
structure LazyCell where
  row : Nat
  col : Nat
  value : Data
deriving DecidableEq

/-- Modelled from the spec (section 4.5): `LazyCell::from(Cell)`. -/
def LazyCell.fromCell (c : Cell) : LazyCell :=
  { row := c.pos.1, col := c.pos.2, value := c.val }

/-- `CalamineLazySheet` (src/types/sheet.rs lines 247-258). -/
structure CalamineLazySheet where
  name : String
  reader : CalamineLazyReader
deriving DecidableEq

/-- `CalamineLazySheet::__next__` (src/types/sheet.rs lines 265-271):
a yielded cell is wrapped in `LazyCell`, a clean end is `ok none`, a
reader failure raises `CalamineError::new_err("some error")`, modelled
as the error message. -/
def CalamineLazySheet.next (s : CalamineLazySheet) :
    Except String (Option LazyCell) × CalamineLazySheet :=
  match s.reader.next_cell with
  | (Except.ok (some v), rd) =>
      (Except.ok (some (LazyCell.fromCell v)), { name := s.name, reader := rd })
  | (Except.ok none, rd) => (Except.ok none, { name := s.name, reader := rd })
  | (Except.error _, rd) =>
      (Except.error ("some error"), { name := s.name, reader := rd })

/-- `CalamineLazySheet::dimensions` (src/types/sheet.rs lines 272-274). -/
def CalamineLazySheet.dimensions (s : CalamineLazySheet) : Dimensions :=
  s.reader.dimensions

/-- An interaction step against a lazy sheet: either a `__next__` call or a
`dimensions` call. -/
inductive LazyOp where
  | callNext : LazyOp
  | callDims : LazyOp
deriving DecidableEq

/-- Whether an interaction step is a `__next__` call. -/
def LazyOp.isNext : LazyOp → Bool
  | LazyOp.callNext => true
  | LazyOp.callDims => false

/-- Run a list of interaction steps against a lazy sheet, threading the
cursor state and recording each call's result (`Sum.inl` for `__next__`,
`Sum.inr` for `dimensions`). -/
def runOps : CalamineLazySheet → List LazyOp →
    List (Except String (Option LazyCell) ⊕ Dimensions)
  | _, [] => []
  | s, LazyOp.callNext :: rest =>
      Sum.inl s.next.1 :: runOps s.next.2 rest
  | s, LazyOp.callDims :: rest =>
      Sum.inr s.dimensions :: runOps s rest

/-- The subsequence of `__next__` results of a run. -/
def nextResults (s : CalamineLazySheet) (ops : List LazyOp) :
    List (Except String (Option LazyCell)) :=
  (runOps s ops).filterMap (fun x =>
    match x with
    | Sum.inl r => some r
    | Sum.inr _ => none)

/-- A 3-row by 2-col grid with start (1,0) and end (3,1), rows 1..3 holding
the integers 1..6 row-major. -/
def grid32 : Range :=
  { rstart := (1, 0)
    rend := (3, 1)
    inner := [Data.IntVal 1, Data.IntVal 2, Data.IntVal 3,
              Data.IntVal 4, Data.IntVal 5, Data.IntVal 6] }

/-- The sheet over `grid32`. -/
def sheet32 : CalamineSheet :=
  { name := "s", range := grid32 }

/-- A single-cell sheet populated at the origin (0,0). -/
def sheetCell00 : CalamineSheet :=
  { name := "a", range := { rstart := (0, 0), rend := (0, 0), inner := [Data.IntVal 1] } }

/-- A single-cell sheet populated at (1,0). -/
def sheetOne10 : CalamineSheet :=
  { name := "b", range := { rstart := (1, 0), rend := (1, 0), inner := [Data.IntVal 7] } }

/-- A 2x2 sheet whose grid starts at the origin. -/
def sheetOrigin : CalamineSheet :=
  { name := "o"
    range := { rstart := (0, 0)
               rend := (1, 1)
               inner := [Data.IntVal 1, Data.IntVal 2, Data.IntVal 3, Data.IntVal 4] } }

/-- An empty sheet: `calamine::Range::empty()` has start (0,1), end (0,0)
and no cells, so `start()`/`end()` are both absent. -/
def emptySheet : CalamineSheet :=
  { name := "e", range := { rstart := (0, 1), rend := (0, 0), inner := [] } }

/-- A lazy xlsx cursor that yields one cell at (0,0) and then ends. -/
def exCursor : FormatCursor XlsxError :=
  { dims := { start := (0, 0), end_ := (0, 0) }
    pending := [Except.ok (some { pos := (0, 0), val := Data.IntVal 5 })] }

/-- The lazy reader over `exCursor`. -/
def exReader : CalamineLazyReader :=
  CalamineLazyReader.Xlsx exCursor

theorem start_some_elim {r : Range} {p : Nat × Nat} (h : Range.start r = some p) :
    r.is_empty = false ∧ r.rstart = p := by
  unfold Range.start at h
  cases hb : r.is_empty <;> rw [hb] at h <;> simp_all

theorem end_some_elim {r : Range} {p : Nat × Nat} (h : Range.end_ r = some p) :
    r.is_empty = false ∧ r.rend = p := by
  unfold Range.end_ at h
  cases hb : r.is_empty <;> rw [hb] at h <;> simp_all

theorem start_none_elim {r : Range} (h : Range.start r = none) :
    r.is_empty = true := by
  unfold Range.start at h
  cases hb : r.is_empty <;> rw [hb] at h <;> simp_all

theorem Range.rows_length (r : Range) : r.rows.length = r.height := by
  unfold Range.rows Range.height
  cases hb : r.is_empty <;> simp

theorem Range.range_height (r : Range) (p : Nat × Nat) :
    (Range.range r (0, 0) p).height = p.1 + 1 := by
  unfold Range.range Range.height Range.is_empty
  simp

/-- C1: the claim states that `total_height()` is 1 + the end row index and
`total_width()` 1 + the end column index; on the sheet with end (3,1) the
code returns 3 and 1, not 4 and 2. -/
theorem C1_counterexample :
    CalamineSheet.end_ sheet32 = some (3, 1) ∧
    ¬ (CalamineSheet.total_height sheet32 = 1 + 3 ∧
       CalamineSheet.total_width sheet32 = 1 + 1) := by
  decide

/-- C1 (amended): `total_height()` equals the row index of the grid's end
coordinate and `total_width()` the column index, whenever dimensions exist,
and both equal 0 when no dimensions exist — without the claimed `1 +`. -/
theorem C1_total_size (s : CalamineSheet) :
    CalamineSheet.total_height s =
      (match s.range.end_ with
       | some e => e.1
       | none => 0) ∧
    CalamineSheet.total_width s =
      (match s.range.end_ with
       | some e => e.2
       | none => 0) := by
  unfold CalamineSheet.total_height CalamineSheet.total_width
  cases h : s.range.end_ <;> simp [h]

/-- C2: the claim states `height() ≤ total_height()`; the single-cell sheet
populated at the origin has `height() = 1` but `total_height() = 0`. -/
theorem C2_counterexample :
    CalamineSheet.height sheetCell00 = 1 ∧
    CalamineSheet.total_height sheetCell00 = 0 ∧
    ¬ (CalamineSheet.height sheetCell00 ≤ CalamineSheet.total_height sheetCell00) := by
  decide

/-- C2 (amended): for every materialized sheet, `height()` is at most
`total_height() + 1` and `width()` at most `total_width() + 1`; the claimed
un-shifted bounds fail exactly when the grid starts at row/column 0. -/
theorem C2_bounds (s : CalamineSheet) :
    CalamineSheet.height s ≤ CalamineSheet.total_height s + 1 ∧
    CalamineSheet.width s ≤ CalamineSheet.total_width s + 1 := by
  unfold CalamineSheet.height CalamineSheet.width CalamineSheet.total_height
    CalamineSheet.total_width Range.height Range.width Range.end_
  cases hb : s.range.is_empty <;> simp <;> omega

/-- C8: both enum conversions are total maps sending each source variant to
the same-named canonical variant, and are injective (no two source variants
are coerced to the same canonical variant). -/
theorem C8_enum_mapping :
    (SheetTypeEnum.fromSheetType SheetType.WorkSheet = SheetTypeEnum.WorkSheet ∧
     SheetTypeEnum.fromSheetType SheetType.DialogSheet = SheetTypeEnum.DialogSheet ∧
     SheetTypeEnum.fromSheetType SheetType.MacroSheet = SheetTypeEnum.MacroSheet ∧
     SheetTypeEnum.fromSheetType SheetType.ChartSheet = SheetTypeEnum.ChartSheet ∧
     SheetTypeEnum.fromSheetType SheetType.Vba = SheetTypeEnum.Vba) ∧
    (SheetVisibleEnum.fromSheetVisible SheetVisible.Visible = SheetVisibleEnum.Visible ∧
     SheetVisibleEnum.fromSheetVisible SheetVisible.Hidden = SheetVisibleEnum.Hidden ∧
     SheetVisibleEnum.fromSheetVisible SheetVisible.VeryHidden = SheetVisibleEnum.VeryHidden) ∧
    (Function.Injective SheetTypeEnum.fromSheetType ∧
     Function.Injective SheetVisibleEnum.fromSheetVisible) := by
  refine ⟨⟨rfl, rfl, rfl, rfl, rfl⟩, ⟨rfl, rfl, rfl⟩, ?_, ?_⟩ <;> decide

/-- C8 witness: the mapping and its injectivity at concrete variants. -/
theorem C8_enum_mapping_witness :
    SheetTypeEnum.fromSheetType SheetType.Vba = SheetTypeEnum.Vba ∧
    SheetType.WorkSheet = SheetType.WorkSheet :=
  ⟨C8_enum_mapping.1.2.2.2.2,
   C8_enum_mapping.2.2.1
     (rfl : SheetTypeEnum.fromSheetType SheetType.WorkSheet =
       SheetTypeEnum.fromSheetType SheetType.WorkSheet)⟩

/-- C9: at the sheet with start (1,0) and end (3,1), calling `to_python`
with `skip_empty_area = false` and `nrows = 0` reaches the `u32`
subtraction `nrows - 1` with `nrows = 0`: the row-bound computation
underflows and the call fails instead of returning an empty row list. -/
theorem C9_underflow :
    CalamineSheet.start sheet32 = some (1, 0) ∧
    CalamineSheet.end_ sheet32 = some (3, 1) ∧
    CalamineSheet.to_python sheet32 false (some 0) = none := by
  decide

theorem exportRange_of_skip_or_origin (s : CalamineSheet) (b : Bool) (n : Nat)
    (h : b = true ∨ s.range.start = some ((0 : Nat), (0 : Nat))) :
    CalamineSheet.exportRange s b n = some s.range := by
  unfold CalamineSheet.exportRange
  rw [if_pos h]

theorem exportRange_false_eq (s : CalamineSheet) (n : Nat) (st e : Nat × Nat)
    (hst : s.range.start = some st) (he : s.range.end_ = some e)
    (hne : st ≠ (0, 0)) (hn : 1 ≤ n) :
    CalamineSheet.exportRange s false n =
      some (s.range.range (0, 0) ((if n > e.1 then e.1 else n - 1), e.2)) := by
  have hcond : ¬ (false = true ∨ s.range.start = some ((0 : Nat), (0 : Nat))) := by
    rintro (hh | hh)
    · exact absurd hh (by simp)
    · rw [hst] at hh
      exact hne (Option.some.inj hh)
  unfold CalamineSheet.exportRange
  rw [if_neg hcond, he]
  show (if n > e.1 then some (s.range.range (0, 0) (e.1, e.2))
        else if 1 ≤ n then some (s.range.range (0, 0) (n - 1, e.2)) else none) = _
  by_cases hlt : n > e.1
  · rw [if_pos hlt, if_pos hlt]
  · rw [if_neg hlt, if_pos hn, if_neg hlt]

theorem to_python_of_start_none (s : CalamineSheet) (h : s.range.start = none)
    (b : Bool) (n? : Option Nat) :
    CalamineSheet.to_python s b n? = some [] := by
  have hb : s.range.is_empty = true := start_none_elim h
  have hend : s.range.end_ = none := by simp [Range.end_, hb]
  have hrows : s.range.rows = [] := by simp [Range.rows, hb]
  have hexp : CalamineSheet.exportRange s b (s.effectiveNrows n?) = some s.range := by
    unfold CalamineSheet.exportRange
    cases b
    · rw [if_neg, hend]
      rintro (hh | hh)
      · exact absurd hh (by simp)
      · rw [h] at hh
        exact Option.noConfusion hh
    · simp
  simp [CalamineSheet.to_python, hexp, hrows]

/-- C3: the claim states the exported row count always equals the given
`row_limit`; exporting the single-row sheet at (1,0) with
`skip_empty_area = true` and `row_limit = 5` returns 1 row, not 5. -/
theorem C3_counterexample :
    (CalamineSheet.to_python sheetOne10 true (some 5)).map List.length = some 1 ∧
    ¬ ((CalamineSheet.to_python sheetOne10 true (some 5)).map List.length = some 5) := by
  decide

/-- C3 (amended): the exported row count is the requested count clipped to
the rows of the exported view. With `skip_empty_area = false`, a nonzero
start, dimensions present and `row_limit ≥ 1` it is
`min(row_limit, end.row + 1)` — the claim's particular case; with
`skip_empty_area = true` and dimensions present it is
`min(row_limit, end.row - start.row + 1)`; with no dimensions the export is
empty. -/
theorem C3_row_counts :
    (∀ (s : CalamineSheet) (n : Nat) (st e : Nat × Nat),
        s.range.start = some st → s.range.end_ = some e → st ≠ (0, 0) → 1 ≤ n →
        (CalamineSheet.to_python s false (some n)).map List.length =
          some (min n (e.1 + 1))) ∧
    (∀ (s : CalamineSheet) (n : Nat) (st e : Nat × Nat),
        s.range.start = some st → s.range.end_ = some e →
        (CalamineSheet.to_python s true (some n)).map List.length =
          some (min n (e.1 - st.1 + 1))) ∧
    (∀ (s : CalamineSheet) (b : Bool) (n? : Option Nat),
        s.range.start = none → CalamineSheet.to_python s b n? = some []) := by
  refine ⟨?_, ?_, fun s b n? h => to_python_of_start_none s h b n?⟩
  · intro s n st e hst he hne hn
    have hv := exportRange_false_eq s n st e hst he hne hn
    simp only [CalamineSheet.to_python, CalamineSheet.effectiveNrows, hv,
      Option.map_some', List.length_map, List.length_take, Range.rows_length,
      Range.range_height, Option.some.injEq]
    split_ifs with hlt <;> omega
  · intro s n st e hst he
    obtain ⟨hemp, hrs⟩ := start_some_elim hst
    obtain ⟨-, hre⟩ := end_some_elim he
    have hv := exportRange_of_skip_or_origin s true n (Or.inl rfl)
    have hh : s.range.height = e.1 - st.1 + 1 := by
      unfold Range.height
      rw [hemp, hrs, hre]
      simp
    simp only [CalamineSheet.to_python, CalamineSheet.effectiveNrows, hv,
      Option.map_some', List.length_map, List.length_take, Range.rows_length, hh]

/-- C3 witness: exporting the 3-row sheet at start (1,0) with
`skip_empty_area = false` and `row_limit = 2` yields min(2, 3+1) = 2 rows. -/
theorem C3_row_counts_witness :
    (CalamineSheet.to_python sheet32 false (some 2)).map List.length =
      some (min 2 (3 + 1)) :=
  C3_row_counts.1 sheet32 2 (1, 0) (3, 1) (by decide) (by decide) (by decide) (by decide)

/-- C4: with `skip_empty_area = false`, nonzero start, dimensions present
and a row limit of at least 1 (a zero limit underflows instead, see C9),
the exported view is the re-slice from (0,0) with row bound `end.row` when
`row_limit > end.row` and `row_limit - 1` otherwise, and column bound
always the true `end.col`; and the 3x2 example with start (1,0), end (3,1),
`row_limit = 2` yields exactly 2 rows: row 0 all Empty, the real data at
exported row index 1. -/
theorem C4_resliced_view :
    (∀ (s : CalamineSheet) (n : Nat) (st e : Nat × Nat),
        s.range.start = some st → s.range.end_ = some e → st ≠ (0, 0) → 1 ≤ n →
        CalamineSheet.exportRange s false n =
          some (s.range.range (0, 0) ((if n > e.1 then e.1 else n - 1), e.2))) ∧
    CalamineSheet.to_python sheet32 false (some 2) =
      some [[CellValue.Empty, CellValue.Empty],
            [CellValue.Integer 1, CellValue.Integer 2]] := by
  exact ⟨fun s n st e hst he hne hn => exportRange_false_eq s n st e hst he hne hn,
    by decide⟩

/-- C4 witness: the re-slice equation at the 3x2 example with row limit 2. -/
theorem C4_resliced_view_witness :
    CalamineSheet.exportRange sheet32 false 2 =
      some (Range.range sheet32.range (0, 0) ((if 2 > 3 then 3 else 2 - 1), 1)) :=
  C4_resliced_view.1 sheet32 2 (1, 0) (3, 1) (by decide) (by decide) (by decide)
    (by decide)

/-- C5: `__next__` returns a wrapped cell exactly when the underlying
cursor yields one, the end-of-sequence signal (`ok none`) exactly when the
cursor reports no more cells, and raises the read-error signal exactly when
the cursor's `next_cell` fails. -/
theorem C5_lazy_next (nm : String) (r : CalamineLazyReader) :
    ((CalamineLazySheet.next { name := nm, reader := r }).1 = Except.ok none ↔
      (CalamineLazyReader.next_cell r).1 = Except.ok none) ∧
    (∀ v : Cell, (CalamineLazyReader.next_cell r).1 = Except.ok (some v) →
      (CalamineLazySheet.next { name := nm, reader := r }).1 =
        Except.ok (some (LazyCell.fromCell v))) ∧
    ((∃ e, (CalamineLazyReader.next_cell r).1 = Except.error e) ↔
      (∃ m, (CalamineLazySheet.next { name := nm, reader := r }).1 =
        Except.error m)) := by
  rcases hres : CalamineLazyReader.next_cell r with ⟨res, rd⟩
  cases res with
  | error e =>
    refine ⟨?_, ?_, ?_⟩ <;> simp [CalamineLazySheet.next, hres]
  | ok v =>
    cases v with
    | none =>
      refine ⟨?_, ?_, ?_⟩ <;> simp [CalamineLazySheet.next, hres]
    | some c =>
      refine ⟨?_, ?_, ?_⟩ <;> simp [CalamineLazySheet.next, hres]

/-- C5 witness: a cursor holding one pending cell yields it wrapped. -/
theorem C5_lazy_next_witness :
    (CalamineLazySheet.next { name := "w", reader := exReader }).1 =
      Except.ok (some (LazyCell.fromCell { pos := (0, 0), val := Data.IntVal 5 })) :=
  (C5_lazy_next "w" exReader).2.1 { pos := (0, 0), val := Data.IntVal 5 } (by decide)

/-- C6: for a sheet whose grid starts at (0,0), export with
`skip_empty_area` true and false yield identical results, and in both
cases the selected view is the backing grid itself (no re-slice). -/
theorem C6_origin_start (s : CalamineSheet) (h : s.range.start = some (0, 0)) :
    (∀ n? : Option Nat,
      CalamineSheet.to_python s true n? = CalamineSheet.to_python s false n?) ∧
    (∀ n : Nat,
      CalamineSheet.exportRange s true n = some s.range ∧
      CalamineSheet.exportRange s false n = some s.range) := by
  have hexp : ∀ (b : Bool) (n : Nat),
      CalamineSheet.exportRange s b n = some s.range := by
    intro b n
    exact exportRange_of_skip_or_origin s b n (Or.inr h)
  refine ⟨?_, fun n => ⟨hexp true n, hexp false n⟩⟩
  intro n?
  simp only [CalamineSheet.to_python, hexp]

/-- C6 witness: at a concrete origin-started sheet the two exports agree
and the view is the backing grid. -/
theorem C6_origin_start_witness :
    CalamineSheet.to_python sheetOrigin true (some 1) =
      CalamineSheet.to_python sheetOrigin false (some 1) ∧
    CalamineSheet.exportRange sheetOrigin true 1 = some sheetOrigin.range :=
  ⟨(C6_origin_start sheetOrigin (by decide)).1 (some 1),
   ((C6_origin_start sheetOrigin (by decide)).2 1).1⟩

/-- C7: a sheet with no dimensions reports `height() = 0`,
`total_height() = 0`, and `to_python` yields the empty row list for every
combination of `skip_empty_area` and `nrows`. -/
theorem C7_empty_sheet (s : CalamineSheet) (h : s.range.start = none) :
    CalamineSheet.height s = 0 ∧ CalamineSheet.total_height s = 0 ∧
    ∀ (b : Bool) (n? : Option Nat), CalamineSheet.to_python s b n? = some [] := by
  have hb : s.range.is_empty = true := start_none_elim h
  have hend : s.range.end_ = none := by simp [Range.end_, hb]
  refine ⟨?_, ?_, fun b n? => to_python_of_start_none s h b n?⟩
  · simp [CalamineSheet.height, Range.height, hb]
  · simp [CalamineSheet.total_height, hend]

/-- C7 witness: the concrete empty sheet. -/
theorem C7_empty_sheet_witness :
    CalamineSheet.height emptySheet = 0 ∧
    CalamineSheet.to_python emptySheet false (some 5) = some [] :=
  ⟨(C7_empty_sheet emptySheet (by decide)).1,
   (C7_empty_sheet emptySheet (by decide)).2.2 false (some 5)⟩

theorem nextResults_nil (s : CalamineLazySheet) : nextResults s [] = [] := rfl

theorem nextResults_next (s : CalamineLazySheet) (rest : List LazyOp) :
    nextResults s (LazyOp.callNext :: rest) =
      s.next.1 :: nextResults s.next.2 rest := by
  simp [nextResults, runOps]

theorem nextResults_dims (s : CalamineLazySheet) (rest : List LazyOp) :
    nextResults s (LazyOp.callDims :: rest) = nextResults s rest := by
  simp [nextResults, runOps]

/-- C10: `dimensions()` never consumes cells: the sequence of `__next__`
results of any interleaving of `__next__` and `dimensions` calls equals
that of the same run with every `dimensions` call removed. -/
theorem C10_dims_pure (s : CalamineLazySheet) (ops : List LazyOp) :
    nextResults s ops = nextResults s (ops.filter LazyOp.isNext) := by
  induction ops generalizing s with
  | nil => rfl
  | cons op rest ih =>
    cases op with
    | callNext =>
      rw [nextResults_next, List.filter_cons]
      simp only [LazyOp.isNext, if_true]
      rw [nextResults_next, ih]
    | callDims =>
      rw [nextResults_dims, List.filter_cons]
      simp only [LazyOp.isNext, if_false]
      exact ih s
